import Mathlib

/-!
Verification of the PersonaPlex voice-assistant repository.

The repository ships a browser client (`src/static/app.js`) and a README
(`src/unnamed/part_000`).  The client code is embedded directly below.
The job-pipeline orchestrator, knowledge store, job store and capability
providers described by the specification are not part of the shipped
sources; they are modelled from the specification text, each such
definition carrying a doc comment that starts with `Modelled from the
spec:`.
-/

namespace Personaplex

/-! ## Data model (spec section 3) -/

/-- Modelled from the spec: the `status` field of a Job, one of
`received, transcribing, retrieving, generating, synthesizing, completed,
failed`. -/
inductive Status where
  | received
  | transcribing
  | retrieving
  | generating
  | synthesizing
  | completed
  | failed
deriving DecidableEq, Repr

/-- Modelled from the spec: the four pipeline stages (glossary: transcribe,
retrieve, generate, synthesize); used to tag errors. -/
inductive Stage where
  | transcribe
  | retrieve
  | generate
  | synthesize
deriving DecidableEq, Repr

/-- Modelled from the spec: the `error` field of a failed Job, carrying a
stage tag and a human-readable cause. -/
structure JobError where
  stage : Stage
  cause : String
deriving DecidableEq, Repr

/-- Modelled from the spec: a Job record — identifier, status, transcript,
citations, assistant text, output-audio reference and error.  Audio bytes
are modelled as lists of naturals. -/
structure Job where
  id : Nat
  status : Status
  transcript : Option String := none
  citations : List String := []
  assistant_text : Option String := none
  audio_ref : Option (List Nat) := none
  error : Option JobError := none
deriving DecidableEq, Repr

/-- Modelled from the spec: a KnowledgeDocument — `id`, `text`, `source`
label used for citations (the optional embedding only exists in semantic
mode and is not needed by the keyword fallback). -/
structure KnowledgeDocument where
  id : String
  text : String
  source : String
deriving DecidableEq, Repr

/-- Numeric rank of a status along the forward pipeline sequence; `failed`
is the largest so that a jump to `failed` is also a forward move. -/
def statusRank : Status → Nat
  | .received => 0
  | .transcribing => 1
  | .retrieving => 2
  | .generating => 3
  | .synthesizing => 4
  | .completed => 5
  | .failed => 6

/-! ## Job store and submission (spec sections 4.1, 4.4) -/

/-- Modelled from the spec: a fresh Job created by `submit`, in `received`
state with all stage outputs absent. -/
def newJob (id : Nat) : Job :=
  { id := id, status := .received }

/-- Modelled from the spec: the job store is the list of created jobs;
`get` finds a job by identifier, signalling `none` (NotFound) for unknown
identifiers. -/
def findJob (st : List Job) (id : Nat) : Option Job :=
  st.find? (fun j => j.id == id)

/-- Modelled from the spec: `submit(audio_bytes) -> job_id` creates a Job
in `received` state in the job store and returns its fresh identifier (the
next unused index). -/
def submit (st : List Job) (_audio : List Nat) : List Job × Nat :=
  (st ++ [newJob st.length], st.length)

/-! ## Capability providers (spec section 4.3) -/

/-- Modelled from the spec: the four capability providers seen by the
orchestrator.  Each call either succeeds with its output or fails with a
`ProviderError` cause (timeouts included), modelled as `Except String`. -/
structure Providers where
  transcribe : List Nat → Except String String
  retrieve : String → Except String (List String)
  generate : String → List String → Except String String
  synthesize : String → Except String (List Nat)

/-! ## Pipeline orchestrator (spec section 4.1) -/

/-- Modelled from the spec: the sequence of Job-store snapshots produced by
the orchestrator for one job, starting from the freshly created record.
For each stage it (a) sets the in-progress status, (b) invokes the
provider, (c) on success writes the output fields, (d) on failure writes
`status=failed` with a stage-tagged error and halts the sequence. -/
def pipelineTrace (P : Providers) (audio : List Nat) (j0 : Job) : List Job :=
  let j1 := { j0 with status := .transcribing }
  match P.transcribe audio with
  | .error e => [j0, j1, { j1 with status := .failed, error := some ⟨.transcribe, e⟩ }]
  | .ok t =>
    let j2 := { j1 with transcript := some t }
    let j3 := { j2 with status := .retrieving }
    match P.retrieve t with
    | .error e => [j0, j1, j2, j3, { j3 with status := .failed, error := some ⟨.retrieve, e⟩ }]
    | .ok cits =>
      let j4 := { j3 with citations := cits }
      let j5 := { j4 with status := .generating }
      match P.generate t cits with
      | .error e =>
        [j0, j1, j2, j3, j4, j5, { j5 with status := .failed, error := some ⟨.generate, e⟩ }]
      | .ok reply =>
        let j6 := { j5 with assistant_text := some reply }
        let j7 := { j6 with status := .synthesizing }
        match P.synthesize reply with
        | .error e =>
          [j0, j1, j2, j3, j4, j5, j6, j7,
            { j7 with status := .failed, error := some ⟨.synthesize, e⟩ }]
        | .ok bytes =>
          let j8 := { j7 with audio_ref := some bytes }
          [j0, j1, j2, j3, j4, j5, j6, j7, j8, { j8 with status := .completed }]

/-- Modelled from the spec: the final Job record once the pipeline has run
(last snapshot of the trace). -/
def finalJob (P : Providers) (audio : List Nat) (j0 : Job) : Job :=
  (pipelineTrace P audio j0).getLastD j0

/-! ## Knowledge store (spec section 4.2) -/

/-- Lowercases an ASCII letter, other characters unchanged. -/
def lowerChar (c : Char) : Char :=
  if 65 ≤ c.toNat ∧ c.toNat ≤ 90 then Char.ofNat (c.toNat + 32) else c

/-- Splits a character list at spaces, accumulating the current word in
reverse; empty fragments are dropped. -/
def splitWords : List Char → List Char → List String
  | [], acc => if acc = [] then [] else [⟨acc.reverse⟩]
  | c :: cs, acc =>
    if c = ' ' then
      if acc = [] then splitWords cs []
      else ⟨acc.reverse⟩ :: splitWords cs []
    else splitWords cs (c :: acc)

/-- Modelled from the spec: token normalization for the keyword fallback —
lowercasing and whitespace splitting, dropping empty fragments. -/
def tokens (s : String) : List String :=
  splitWords (s.data.map lowerChar) []

/-- Modelled from the spec: keyword-overlap score — the count of shared
normalized tokens between query and document (each shared token counted
once). -/
def overlapScore (query text : String) : Nat :=
  ((tokens query).dedup.filter (fun t => t ∈ tokens text)).length

/-- Largest score appearing in a scored document list. -/
def maxScore (scored : List (KnowledgeDocument × Nat)) : Nat :=
  scored.foldr (fun p m => max p.2 m) 0

/-- Modelled from the spec: the retrieval core shared by both modes — score
every document, order descending by score with ties broken by original
document order (a stable bucket pass over scores `m, m-1, ..., 1`), drop
documents below the minimal relevance threshold (score zero), and return at
most `topK` results. -/
def retrieveBy (score : KnowledgeDocument → Nat) (docs : List KnowledgeDocument)
    (topK : Nat) : List (KnowledgeDocument × Nat) :=
  let scored := docs.map (fun d => (d, score d))
  let m := maxScore scored
  ((((List.range m).reverse.map (fun s => s + 1)).flatMap
      (fun s => scored.filter (fun p => p.2 = s))).take topK)

/-- Modelled from the spec: keyword-fallback retrieval, used when no
semantic index is configured. -/
def keywordRetrieve (docs : List KnowledgeDocument) (query : String)
    (topK : Nat) : List (KnowledgeDocument × Nat) :=
  retrieveBy (fun d => overlapScore query d.text) docs topK

/-- Modelled from the spec: semantic-mode retrieval, with the
vector-similarity scoring of the configured index abstracted as a scoring
function of the query. -/
def semanticRetrieve (sim : String → KnowledgeDocument → Nat)
    (docs : List KnowledgeDocument) (query : String) (topK : Nat) :
    List (KnowledgeDocument × Nat) :=
  retrieveBy (sim query) docs topK

/-- Modelled from the spec: the fixed local document collection backing the
keyword fallback (README: local markdown keyword search). -/
def localDocs : List KnowledgeDocument :=
  [ ⟨"doc-governance", "personaplex governance policies for voice assistants",
      "governance.md"⟩,
    ⟨"doc-setup", "setup guide for the personaplex fastapi voice pipeline",
      "setup.md"⟩,
    ⟨"doc-faq", "frequently asked questions about audio synthesis and playback",
      "faq.md"⟩ ]

/-! ## Local fallback providers (spec section 4.3, README no-secret mode) -/

/-- Modelled from the spec: README line 14 — the no-secret fallback mode
keeps the STT flow working; modelled as a transcriber that always succeeds
(an empty or silent clip yields an empty transcript, which still
proceeds). -/
def fallbackTranscribe (_audio : List Nat) : Except String String :=
  .ok ""

/-- Modelled from the spec: the Retriever bound to the keyword fallback
over the local document collection, returning the source labels of the top
results as citations; never fails. -/
def fallbackRetrieve (query : String) : Except String (List String) :=
  .ok ((keywordRetrieve localDocs query 3).map (fun p => p.1.source))

/-- Modelled from the spec: the Responder fallback composes a deterministic
templated reply referencing the top citation, and tolerates an empty
transcript with a best-effort canned response; its output is never
empty. -/
def fallbackReply (transcript : String) (citations : List String) : String :=
  match citations with
  | [] => "I could not find relevant sources, but here is my best answer to: "
      ++ transcript
  | c :: _ => "Based on " ++ c ++ ", here is my answer to: " ++ transcript

/-- Modelled from the spec: the Responder fallback as a provider call;
never fails. -/
def fallbackGenerate (transcript : String) (citations : List String) :
    Except String String :=
  .ok (fallbackReply transcript citations)

/-- Modelled from the spec: the Synthesizer fallback produces a minimal
valid audio payload (silence) of nonzero length; never fails. -/
def fallbackSynthesize (_text : String) : Except String (List Nat) :=
  .ok (List.replicate 160 0)

/-- Modelled from the spec: the provider binding when no external
credentials are configured at all. -/
def fallbackProviders : Providers :=
  { transcribe := fallbackTranscribe
    retrieve := fallbackRetrieve
    generate := fallbackGenerate
    synthesize := fallbackSynthesize }

/-! ## Audio retrieval endpoint (spec section 6) -/

/-- Modelled from the spec: outcome of requesting a job's audio — unknown
identifier, a defined not-available outcome, or the synthesized bytes. -/
inductive AudioResult where
  | notFound
  | notAvailable
  | bytes (b : List Nat)
deriving DecidableEq, Repr

/-- Modelled from the spec: the audio endpoint returns the synthesized
bytes of the requested job once `status=completed`; before completion or
for a failed job it returns the defined not-available outcome, and for an
unknown identifier it returns not-found. -/
def getAudio (st : List Job) (id : Nat) : AudioResult :=
  match findJob st id with
  | none => .notFound
  | some j =>
    if j.status = .completed then
      match j.audio_ref with
      | some b => .bytes b
      | none => .notAvailable
    else .notAvailable

end Personaplex

namespace AppJs

/-! ## Browser client, embedded from `src/static/app.js` -/

/-- MediaRecorder state attribute. -/
inductive RecorderState where
  | inactive
  | recording
  | paused
deriving DecidableEq, Repr

/-- Client-side state: the `mediaRecorder` variable (absent until a
recording is granted) and the DOM pieces the handlers touch. -/
structure ClientUI where
  recorder : Option RecorderState
  recordDisabled : Bool
  stopDisabled : Bool
  statusText : String
deriving DecidableEq, Repr

/-- Initial client state: no recorder exists yet. -/
def initClient : ClientUI :=
  { recorder := none, recordDisabled := false, stopDisabled := true,
    statusText := "" }

/-- Embeds the stop-button click handler (`app.js` lines 36-43): calls
`mediaRecorder.stop()` only when the recorder exists and its state is not
inactive, then disables Stop and re-enables Record.  The boolean of the
result records whether `stop` was invoked on the recorder. -/
def stopClick (c : ClientUI) : ClientUI × Bool :=
  match c.recorder with
  | some s =>
    if s ≠ .inactive then
      ({ c with
          recorder := some .inactive
          statusText := "Uploading audio..."
          stopDisabled := true
          recordDisabled := false }, true)
    else
      ({ c with stopDisabled := true, recordDisabled := false }, false)
  | none => ({ c with stopDisabled := true, recordDisabled := false }, false)

/-- Client events: the record button resolving with a granted or denied
microphone, and a stop-button press. -/
inductive UIEvent where
  | recordGranted
  | recordDenied (msg : String)
  | stopPress
deriving DecidableEq, Repr

/-- Embeds the record-button click handler (`app.js` lines 11-34) and the
stop handler as one step function; the boolean records whether the step
invoked `stop` on the recorder. -/
def uiStep (c : ClientUI) : UIEvent → ClientUI × Bool
  | .recordGranted =>
    ({ c with
        recorder := some .recording
        statusText := "Recording..."
        recordDisabled := true
        stopDisabled := false }, false)
  | .recordDenied m =>
    ({ c with statusText := "Microphone access failed: " ++ m }, false)
  | .stopPress => stopClick c

/-- Runs a sequence of client events from a state. -/
def uiRun (c : ClientUI) : List UIEvent → ClientUI
  | [] => c
  | e :: es => uiRun (uiStep c e).1 es

/-- DOM pieces touched by `uploadAudio`: the status line, the transcript
and assistant-text elements, the audio player source and the number of
`player.load()` calls. -/
structure Dom where
  statusText : String
  transcript : String
  assistantText : String
  playerSrc : String
  playerLoads : Nat
deriving DecidableEq, Repr

/-- Shape of the JSON body the client reads from the `POST /api/voice`
response (`app.js` lines 53-64): `detail`, `transcript`, `assistant_text`
and `job_id` fields. -/
structure VoiceResponse where
  ok : Bool
  detail : Option String
  transcript : Option String
  assistant_text : Option String
  job_id : String
deriving DecidableEq, Repr

/-- JavaScript `x || d` on an optional string field: absent or empty falls
back to the default. -/
def orDefault (x : Option String) (d : String) : String :=
  match x with
  | some s => if s = "" then d else s
  | none => d

/-- Embeds `uploadAudio` (`app.js` lines 45-68).  The fetch result is
either a network-level failure message or a parsed response.  On a non-ok
response the thrown error is caught and only the status line changes; on an
ok response the transcript and assistant-text elements and the player
source are set from the response body. -/
def uploadAudio (dom : Dom) (fetchResult : Except String VoiceResponse) : Dom :=
  let d0 := { dom with statusText := "Processing..." }
  match fetchResult with
  | .error msg => { d0 with statusText := "Error: " ++ msg }
  | .ok r =>
    if r.ok then
      { d0 with
          transcript := orDefault r.transcript "-",
          assistantText := orDefault r.assistant_text "-",
          playerSrc := "/api/jobs/" ++ r.job_id ++ "/audio",
          playerLoads := dom.playerLoads + 1,
          statusText := "Done. Job ID: " ++ r.job_id }
    else
      { d0 with statusText :=
          "Error: " ++ orDefault r.detail "Voice processing failed" }

end AppJs

namespace Personaplex

/-! ## Concrete fixtures used by witnesses and counterexamples -/

/-- Two-document fixture: the token `alpha` occurs in exactly the first
document, while the second shares two tokens with a longer query. -/
def cexDocs : List KnowledgeDocument :=
  [ ⟨"dA", "alpha", "a.md"⟩, ⟨"dB", "beta gamma", "b.md"⟩ ]

/-- Provider binding whose Retriever always fails (for example a timeout),
the other capabilities being the local fallbacks. -/
def sampleRetrieveFail : Providers :=
  { fallbackProviders with retrieve := fun _ => .error "timeout" }

/-- Job-store fixture: an in-progress job, a failed job, and a completed
job with synthesized audio. -/
def sampleStore : List Job :=
  [ { id := 0, status := .transcribing },
    { id := 1, status := .failed, error := some ⟨.generate, "boom"⟩ },
    { id := 2, status := .completed, audio_ref := some [9, 9, 9] } ]

end Personaplex

namespace AppJs

/-- DOM fixture with recognizable pre-upload contents. -/
def sampleDom : Dom :=
  { statusText := "", transcript := "old transcript",
    assistantText := "old answer", playerSrc := "old-src", playerLoads := 0 }

/-- Non-ok response from `POST /api/voice` carrying an error detail. -/
def sampleErrResponse : VoiceResponse :=
  { ok := false, detail := some "bad audio", transcript := none,
    assistant_text := none, job_id := "" }

/-- Ok response from `POST /api/voice`; as in `app.js` lines 53-64 it
carries the transcript, the assistant text and the job identifier. -/
def sampleOkResponse : VoiceResponse :=
  { ok := true, detail := none, transcript := some "hello there",
    assistant_text := some "sure, hi", job_id := "job-1" }

end AppJs

namespace Personaplex

/-! ## Helper lemmas about the pipeline -/

theorem finalJob_of_transcribe_error (P : Providers) (audio : List Nat) (id : Nat)
    (e : String) (h : P.transcribe audio = .error e) :
    finalJob P audio (newJob id) =
      { id := id, status := .failed, error := some ⟨.transcribe, e⟩ } := by
  simp only [finalJob, pipelineTrace, h]
  rfl

theorem finalJob_of_retrieve_error (P : Providers) (audio : List Nat) (id : Nat)
    (t e : String) (h1 : P.transcribe audio = .ok t) (h2 : P.retrieve t = .error e) :
    finalJob P audio (newJob id) =
      { id := id, status := .failed, transcript := some t,
        error := some ⟨.retrieve, e⟩ } := by
  simp only [finalJob, pipelineTrace, h1, h2]
  rfl

theorem finalJob_of_generate_error (P : Providers) (audio : List Nat) (id : Nat)
    (t e : String) (cits : List String) (h1 : P.transcribe audio = .ok t)
    (h2 : P.retrieve t = .ok cits) (h3 : P.generate t cits = .error e) :
    finalJob P audio (newJob id) =
      { id := id, status := .failed, transcript := some t, citations := cits,
        error := some ⟨.generate, e⟩ } := by
  simp only [finalJob, pipelineTrace, h1, h2, h3]
  rfl

theorem finalJob_of_synthesize_error (P : Providers) (audio : List Nat) (id : Nat)
    (t reply e : String) (cits : List String) (h1 : P.transcribe audio = .ok t)
    (h2 : P.retrieve t = .ok cits) (h3 : P.generate t cits = .ok reply)
    (h4 : P.synthesize reply = .error e) :
    finalJob P audio (newJob id) =
      { id := id, status := .failed, transcript := some t, citations := cits,
        assistant_text := some reply, error := some ⟨.synthesize, e⟩ } := by
  simp only [finalJob, pipelineTrace, h1, h2, h3, h4]
  rfl

theorem finalJob_of_success (P : Providers) (audio : List Nat) (id : Nat)
    (t reply : String) (cits : List String) (bytes : List Nat)
    (h1 : P.transcribe audio = .ok t) (h2 : P.retrieve t = .ok cits)
    (h3 : P.generate t cits = .ok reply) (h4 : P.synthesize reply = .ok bytes) :
    finalJob P audio (newJob id) =
      { id := id, status := .completed, transcript := some t, citations := cits,
        assistant_text := some reply, audio_ref := some bytes } := by
  simp only [finalJob, pipelineTrace, h1, h2, h3, h4]
  rfl

/-- C2: for every job and every pair of successive observations of its
`status` field along the pipeline, the status only advances forward through
the sequence (by rank) or jumps directly to `failed`; it never regresses. -/
theorem C2_status_never_regresses (P : Providers) (audio : List Nat) (id : Nat) :
    ((pipelineTrace P audio (newJob id)).map (fun j => j.status)).Chain'
      (fun a b => statusRank a ≤ statusRank b ∨ b = .failed) := by
  rcases htr : P.transcribe audio with e | t
  · simp [pipelineTrace, htr, statusRank, List.chain'_cons, newJob]
  · rcases hre : P.retrieve t with e | cits
    · simp [pipelineTrace, htr, hre, statusRank, List.chain'_cons, newJob]
    · rcases hge : P.generate t cits with e | reply
      · simp [pipelineTrace, htr, hre, hge, statusRank, List.chain'_cons, newJob]
      · rcases hsy : P.synthesize reply with e | bytes
        · simp [pipelineTrace, htr, hre, hge, hsy, statusRank, List.chain'_cons,
            newJob]
        · simp [pipelineTrace, htr, hre, hge, hsy, statusRank, List.chain'_cons,
            newJob]

/-- C3: whenever a stage provider call fails (timeouts included, modelled
as an `Except.error` outcome), the final job record is exactly the failed
record tagged with that stage: every later-stage field keeps its default
absent value, so no later stage ever ran. -/
theorem C3_failure_halts_pipeline (P : Providers) (audio : List Nat) (id : Nat) :
    (∀ e, P.transcribe audio = .error e →
      finalJob P audio (newJob id) =
        { id := id, status := .failed, error := some ⟨.transcribe, e⟩ }) ∧
    (∀ t e, P.transcribe audio = .ok t → P.retrieve t = .error e →
      finalJob P audio (newJob id) =
        { id := id, status := .failed, transcript := some t,
          error := some ⟨.retrieve, e⟩ }) ∧
    (∀ t cits e, P.transcribe audio = .ok t → P.retrieve t = .ok cits →
      P.generate t cits = .error e →
      finalJob P audio (newJob id) =
        { id := id, status := .failed, transcript := some t, citations := cits,
          error := some ⟨.generate, e⟩ }) ∧
    (∀ t cits reply e, P.transcribe audio = .ok t → P.retrieve t = .ok cits →
      P.generate t cits = .ok reply → P.synthesize reply = .error e →
      finalJob P audio (newJob id) =
        { id := id, status := .failed, transcript := some t, citations := cits,
          assistant_text := some reply, error := some ⟨.synthesize, e⟩ }) := by
  refine ⟨?_, ?_, ?_, ?_⟩
  · intro e h
    exact finalJob_of_transcribe_error P audio id e h
  · intro t e h1 h2
    exact finalJob_of_retrieve_error P audio id t e h1 h2
  · intro t cits e h1 h2 h3
    exact finalJob_of_generate_error P audio id t e cits h1 h2 h3
  · intro t cits reply e h1 h2 h3 h4
    exact finalJob_of_synthesize_error P audio id t reply e cits h1 h2 h3 h4

/-- Witness for C3 at a concrete input: a Retriever that times out on a
submitted clip leaves the job failed, tagged to the retrieve stage, with no
later-stage field populated. -/
theorem C3_failure_halts_pipeline_witness :
    finalJob sampleRetrieveFail [1] (newJob 0) =
      { id := 0, status := .failed, transcript := some "",
        error := some ⟨.retrieve, "timeout"⟩ } :=
  (C3_failure_halts_pipeline sampleRetrieveFail [1] 0).2.1 "" "timeout" rfl rfl

/-- C7: a `ProviderError` raised during any pipeline stage is caught and
recorded on the Job as `status=failed` with the stage and cause; the
orchestration is a total function into Job records, so nothing is raised,
and the identifier `submit` returned is unaffected by provider outcomes. -/
theorem C7_provider_error_recorded_not_raised (st : List Job) (P : Providers)
    (audio : List Nat) (id : Nat) :
    (submit st audio).2 = st.length ∧
    (newJob st.length).status = .received ∧
    (∀ e, P.transcribe audio = .error e →
      (finalJob P audio (newJob id)).status = .failed ∧
      (finalJob P audio (newJob id)).error = some ⟨.transcribe, e⟩) ∧
    (∀ t e, P.transcribe audio = .ok t → P.retrieve t = .error e →
      (finalJob P audio (newJob id)).status = .failed ∧
      (finalJob P audio (newJob id)).error = some ⟨.retrieve, e⟩) ∧
    (∀ t cits e, P.transcribe audio = .ok t → P.retrieve t = .ok cits →
      P.generate t cits = .error e →
      (finalJob P audio (newJob id)).status = .failed ∧
      (finalJob P audio (newJob id)).error = some ⟨.generate, e⟩) ∧
    (∀ t cits reply e, P.transcribe audio = .ok t → P.retrieve t = .ok cits →
      P.generate t cits = .ok reply → P.synthesize reply = .error e →
      (finalJob P audio (newJob id)).status = .failed ∧
      (finalJob P audio (newJob id)).error = some ⟨.synthesize, e⟩) := by
  refine ⟨rfl, rfl, ?_, ?_, ?_, ?_⟩
  · intro e h
    rw [finalJob_of_transcribe_error P audio id e h]
    exact ⟨rfl, rfl⟩
  · intro t e h1 h2
    rw [finalJob_of_retrieve_error P audio id t e h1 h2]
    exact ⟨rfl, rfl⟩
  · intro t cits e h1 h2 h3
    rw [finalJob_of_generate_error P audio id t e cits h1 h2 h3]
    exact ⟨rfl, rfl⟩
  · intro t cits reply e h1 h2 h3 h4
    rw [finalJob_of_synthesize_error P audio id t reply e cits h1 h2 h3 h4]
    exact ⟨rfl, rfl⟩

/-- Witness for C7 at a concrete input: with a timing-out Retriever the
job ends failed and tagged, while the submission result is untouched. -/
theorem C7_provider_error_recorded_not_raised_witness :
    (submit [] [1]).2 = 0 ∧
    (finalJob sampleRetrieveFail [1] (newJob 0)).status = .failed ∧
    (finalJob sampleRetrieveFail [1] (newJob 0)).error =
      some ⟨.retrieve, "timeout"⟩ :=
  have h := C7_provider_error_recorded_not_raised [] sampleRetrieveFail [1] 0
  ⟨h.1, (h.2.2.2.1 "" "timeout" rfl rfl).1, (h.2.2.2.1 "" "timeout" rfl rfl).2⟩

/-- C4: with no external credentials at all (every capability bound to its
local fallback), every submitted job still reaches `completed` with a
non-empty `assistant_text` and synthesized audio of nonzero length. -/
theorem C4_fallbacks_complete_end_to_end (audio : List Nat) (id : Nat) :
    (finalJob fallbackProviders audio (newJob id)).status = .completed ∧
    (∃ s, (finalJob fallbackProviders audio (newJob id)).assistant_text = some s ∧
      s ≠ "") ∧
    (∃ b, (finalJob fallbackProviders audio (newJob id)).audio_ref = some b ∧
      0 < b.length) := by
  have hkr : keywordRetrieve localDocs "" 3 = [] := by decide
  have hre : fallbackProviders.retrieve "" = .ok [] := by
    show fallbackRetrieve "" = .ok []
    unfold fallbackRetrieve
    rw [hkr]
    rfl
  have h := finalJob_of_success fallbackProviders audio id "" (fallbackReply "" [])
    [] (List.replicate 160 0) rfl hre rfl rfl
  rw [h]
  refine ⟨rfl, ⟨fallbackReply "" [], rfl, by decide⟩,
    ⟨List.replicate 160 0, rfl, by rw [List.length_replicate]; omega⟩⟩

/-- C8: audio retrieval is gated on completion — an unknown identifier
gives not-found, a job that is failed or not yet completed gives the
defined not-available outcome, and whenever bytes are returned they are the
`audio_ref` of that very job's completed record, never another job's. -/
theorem C8_audio_gated_on_completion (st : List Job) (id : Nat) :
    (findJob st id = none → getAudio st id = .notFound) ∧
    (∀ j, findJob st id = some j → j.status ≠ .completed →
      getAudio st id = .notAvailable) ∧
    (∀ b, getAudio st id = .bytes b →
      ∃ j, findJob st id = some j ∧ j.status = .completed ∧
        j.audio_ref = some b) := by
  refine ⟨?_, ?_, ?_⟩
  · intro h
    simp [getAudio, h]
  · intro j h hs
    simp [getAudio, h, hs]
  · intro b h
    unfold getAudio at h
    split at h
    · cases h
    next j hf =>
      by_cases hs : j.status = .completed
      · rw [if_pos hs] at h
        rcases har : j.audio_ref with _ | bb <;> rw [har] at h
        · cases h
        · injection h with hb
          subst hb
          exact ⟨j, hf, hs, har⟩
      · rw [if_neg hs] at h
        cases h

/-- Witness for C8 at concrete inputs: audio for an in-progress job and a
failed job is not available, an unknown identifier is not found. -/
theorem C8_audio_gated_on_completion_witness :
    getAudio sampleStore 0 = .notAvailable ∧
    getAudio sampleStore 1 = .notAvailable ∧
    getAudio sampleStore 7 = .notFound :=
  ⟨(C8_audio_gated_on_completion sampleStore 0).2.1 _ rfl (by decide),
    (C8_audio_gated_on_completion sampleStore 1).2.1 _ rfl (by decide),
    (C8_audio_gated_on_completion sampleStore 7).1 rfl⟩

/-! ## Job store lookup after submission -/

theorem find?_append_right {α : Type} (p : α → Bool) (l₁ l₂ : List α)
    (h : ∀ a ∈ l₁, p a = false) : (l₁ ++ l₂).find? p = l₂.find? p := by
  induction l₁ with
  | nil => rfl
  | cons a l ih =>
    have ha := h a (List.mem_cons_self a l)
    simp only [List.cons_append, List.find?_cons, ha]
    exact ih (fun b hb => h b (List.mem_cons_of_mem a hb))

theorem findJob_submit (st : List Job) (audio : List Nat)
    (hw : ∀ j ∈ st, j.id < st.length) :
    findJob (submit st audio).1 (submit st audio).2 = some (newJob st.length) := by
  unfold findJob submit
  rw [find?_append_right]
  · simp [newJob]
  · intro j hj
    have hlt := hw j hj
    simp only [beq_eq_false_iff_ne]
    exact Nat.ne_of_lt hlt

/-! ## Helper lemmas about retrieval -/

theorem foldr_max_of_all_zero (l : List (KnowledgeDocument × Nat)) (init : Nat)
    (h : ∀ p ∈ l, p.2 = 0) :
    l.foldr (fun p m => max p.2 m) init = init := by
  induction l with
  | nil => rfl
  | cons p l ih =>
    have hp := h p (List.mem_cons_self p l)
    simp only [List.foldr_cons, hp,
      ih (fun q hq => h q (List.mem_cons_of_mem p hq))]
    omega

theorem maxScore_eq_zero (l : List (KnowledgeDocument × Nat))
    (h : ∀ p ∈ l, p.2 = 0) : maxScore l = 0 :=
  foldr_max_of_all_zero l 0 h

theorem buckets_pairwise (m : Nat) :
    ((List.range m).reverse.map (fun s => s + 1)).Pairwise (fun a b => b < a) := by
  have h1 : (List.range m).Pairwise (· < ·) := List.pairwise_lt_range m
  have h2 : (List.range m).reverse.Pairwise (fun a b => b < a) :=
    List.pairwise_reverse.2 (by simpa using h1)
  exact h2.map _ (fun a b hab => Nat.add_lt_add_right hab 1)

theorem flatMap_buckets_pairwise (scored : List (KnowledgeDocument × Nat))
    (ss : List Nat) (h : ss.Pairwise (fun a b => b < a)) :
    (ss.flatMap (fun s => scored.filter (fun p => p.2 = s))).Pairwise
      (fun a b => b.2 ≤ a.2) := by
  induction ss with
  | nil => simp
  | cons s ss ih =>
    rw [List.flatMap_cons]
    have hcons := List.pairwise_cons.1 h
    refine List.pairwise_append.2 ⟨?_, ih hcons.2, ?_⟩
    · refine List.pairwise_of_forall_mem_list ?_
      intro a ha b hb
      have ha2 : a.2 = s := by simpa using (List.mem_filter.1 ha).2
      have hb2 : b.2 = s := by simpa using (List.mem_filter.1 hb).2
      omega
    · intro a ha b hb
      have ha2 : a.2 = s := by simpa using (List.mem_filter.1 ha).2
      rcases List.mem_flatMap.1 hb with ⟨s2, hs2, hb2⟩
      have hb3 : b.2 = s2 := by simpa using (List.mem_filter.1 hb2).2
      have hlt : s2 < s := hcons.1 s2 hs2
      omega

theorem retrieveBy_length_le (score : KnowledgeDocument → Nat)
    (docs : List KnowledgeDocument) (topK : Nat) :
    (retrieveBy score docs topK).length ≤ topK := by
  simp only [retrieveBy]
  exact List.length_take_le topK _

theorem retrieveBy_sorted (score : KnowledgeDocument → Nat)
    (docs : List KnowledgeDocument) (topK : Nat) :
    (retrieveBy score docs topK).Pairwise (fun a b => b.2 ≤ a.2) := by
  simp only [retrieveBy]
  exact (flatMap_buckets_pairwise _ _ (buckets_pairwise _)).sublist
    (List.take_sublist _ _)

theorem retrieveBy_eq_nil (score : KnowledgeDocument → Nat)
    (docs : List KnowledgeDocument) (topK : Nat)
    (h : ∀ d ∈ docs, score d = 0) : retrieveBy score docs topK = [] := by
  simp only [retrieveBy]
  have hm : maxScore (docs.map (fun d => (d, score d))) = 0 := by
    refine maxScore_eq_zero _ ?_
    intro p hp
    rcases List.mem_map.1 hp with ⟨d, hd, rfl⟩
    exact h d hd
  rw [hm]
  simp

theorem overlapScore_single_token (q t : String) (text : String)
    (hq : (tokens q).dedup = [t]) (hin : t ∈ tokens text) :
    overlapScore q text = 1 := by
  unfold overlapScore
  rw [hq]
  simp [hin]

theorem overlapScore_single_token_absent (q t : String) (text : String)
    (hq : (tokens q).dedup = [t]) (hout : t ∉ tokens text) :
    overlapScore q text = 0 := by
  unfold overlapScore
  rw [hq]
  simp [hout]

theorem keywordRetrieve_unique_term (l₁ l₂ : List KnowledgeDocument)
    (d : KnowledgeDocument) (q t : String) (k : Nat)
    (hq : (tokens q).dedup = [t]) (hin : t ∈ tokens d.text)
    (h₁ : ∀ e ∈ l₁, t ∉ tokens e.text) (h₂ : ∀ e ∈ l₂, t ∉ tokens e.text) :
    keywordRetrieve (l₁ ++ d :: l₂) q (k + 1) = [(d, 1)] := by
  have hA : ∀ p ∈ l₁.map (fun e => (e, overlapScore q e.text)), p.2 = 0 := by
    intro p hp
    rcases List.mem_map.1 hp with ⟨e, he, rfl⟩
    exact overlapScore_single_token_absent q t e.text hq (h₁ e he)
  have hB : ∀ p ∈ l₂.map (fun e => (e, overlapScore q e.text)), p.2 = 0 := by
    intro p hp
    rcases List.mem_map.1 hp with ⟨e, he, rfl⟩
    exact overlapScore_single_token_absent q t e.text hq (h₂ e he)
  have hd1 : overlapScore q d.text = 1 := overlapScore_single_token q t d.text hq hin
  unfold keywordRetrieve
  simp only [retrieveBy, List.map_append, List.map_cons, hd1]
  have hmax : maxScore (l₁.map (fun e => (e, overlapScore q e.text)) ++
      (d, 1) :: l₂.map (fun e => (e, overlapScore q e.text))) = 1 := by
    unfold maxScore
    rw [List.foldr_append]
    have hinner : ((d, 1) :: l₂.map (fun e => (e, overlapScore q e.text))).foldr
        (fun p m => max p.2 m) 0 = 1 := by
      rw [List.foldr_cons, foldr_max_of_all_zero _ 0 hB]
      simp
    rw [hinner, foldr_max_of_all_zero _ 1 hA]
  rw [hmax]
  have hbk : ((List.range 1).reverse.map (fun s => s + 1)) = [1] := rfl
  rw [hbk, List.flatMap_cons, List.flatMap_nil, List.append_nil,
    List.filter_append, List.filter_cons]
  have hfA : (l₁.map (fun e => (e, overlapScore q e.text))).filter
      (fun p => p.2 = 1) = [] := by
    rw [List.filter_eq_nil_iff]
    intro p hp
    simp [hA p hp]
  have hfB : (l₂.map (fun e => (e, overlapScore q e.text))).filter
      (fun p => p.2 = 1) = [] := by
    rw [List.filter_eq_nil_iff]
    intro p hp
    simp [hB p hp]
  rw [hfA, hfB]
  simp

/-- C5, counterexample: in the keyword fallback, a query CONTAINING a term
held by exactly one document need not rank that document first.  With the
two-document fixture, `alpha` occurs in exactly the first document, the
query `alpha beta gamma` contains it, yet the second document (sharing two
tokens) is returned first and the first document second. -/
theorem C5_counterexample_containing_query :
    ("alpha" ∈ tokens "alpha beta gamma") ∧
    (cexDocs.filter (fun e => decide ("alpha" ∈ tokens e.text))).length = 1 ∧
    ((keywordRetrieve cexDocs "alpha beta gamma" 5).head?.map
      (fun p => p.1.id)) = some "dB" ∧
    ¬ ((keywordRetrieve cexDocs "alpha beta gamma" 5).head?.map
      (fun p => p.1.id)) = some "dA" := by
  decide

/-- C5, amended: when no semantic index is configured, retrieve scores each
document as the count of shared normalized tokens with the query, ties
broken by original document order; in particular, for a query whose
normalized tokens consist solely of a term present in exactly one indexed
document, and a positive `top_k`, that document is returned first with a
score of at least 1. -/
theorem C5_keyword_unique_term_first (docs l₁ l₂ : List KnowledgeDocument)
    (d : KnowledgeDocument) (q t : String) (topK : Nat)
    (hq : (tokens q).dedup = [t]) (hk : 1 ≤ topK) (hd : docs = l₁ ++ d :: l₂)
    (hin : t ∈ tokens d.text)
    (h₁ : ∀ e ∈ l₁, t ∉ tokens e.text) (h₂ : ∀ e ∈ l₂, t ∉ tokens e.text) :
    ∃ s, (keywordRetrieve docs q topK).head? = some (d, s) ∧ 1 ≤ s := by
  obtain ⟨k, rfl⟩ : ∃ k, topK = k + 1 := ⟨topK - 1, by omega⟩
  subst hd
  rw [keywordRetrieve_unique_term l₁ l₂ d q t k hq hin h₁ h₂]
  exact ⟨1, rfl, le_refl 1⟩

/-- Witness for the amended C5 at a concrete input: querying the fixture
with just `alpha` returns the unique document holding it, first, with
score 1. -/
theorem C5_keyword_unique_term_first_witness :
    ∃ s, (keywordRetrieve cexDocs "alpha" 5).head? =
      some (⟨"dA", "alpha", "a.md"⟩, s) ∧ 1 ≤ s :=
  C5_keyword_unique_term_first cexDocs [] [⟨"dB", "beta gamma", "b.md"⟩]
    ⟨"dA", "alpha", "a.md"⟩ "alpha" "alpha" 5 (by decide) (by omega) rfl
    (by decide) (by decide) (by decide)

/-- C6: in both retrieval modes (keyword and semantic, which share the
`retrieveBy` core) the result has at most `top_k` entries and is ordered
descending by score; when no document meets the minimal relevance threshold
the result is the empty sequence, never an error; and a pipeline whose
retrieval matches nothing still reaches `completed` with an empty citation
list. -/
theorem C6_retrieval_bounded_sorted_empty_ok (docs : List KnowledgeDocument)
    (q : String) (topK : Nat) (sim : String → KnowledgeDocument → Nat)
    (P : Providers) (audio : List Nat) (id : Nat) :
    (keywordRetrieve docs q topK).length ≤ topK ∧
    (keywordRetrieve docs q topK).Pairwise (fun a b => b.2 ≤ a.2) ∧
    (semanticRetrieve sim docs q topK).length ≤ topK ∧
    (semanticRetrieve sim docs q topK).Pairwise (fun a b => b.2 ≤ a.2) ∧
    ((∀ d ∈ docs, overlapScore q d.text = 0) →
      keywordRetrieve docs q topK = []) ∧
    ((∀ d ∈ docs, sim q d = 0) → semanticRetrieve sim docs q topK = []) ∧
    (∀ t reply bytes, P.transcribe audio = .ok t → P.retrieve t = .ok [] →
      P.generate t [] = .ok reply → P.synthesize reply = .ok bytes →
      (finalJob P audio (newJob id)).status = .completed ∧
      (finalJob P audio (newJob id)).citations = []) := by
  refine ⟨retrieveBy_length_le _ docs topK, retrieveBy_sorted _ docs topK,
    retrieveBy_length_le _ docs topK, retrieveBy_sorted _ docs topK,
    fun h => retrieveBy_eq_nil _ docs topK h,
    fun h => retrieveBy_eq_nil _ docs topK h, ?_⟩
  intro t reply bytes h1 h2 h3 h4
  rw [finalJob_of_success P audio id t reply [] bytes h1 h2 h3 h4]
  exact ⟨rfl, rfl⟩

/-- Witness for C6 at concrete inputs: a query matching no local document
retrieves the empty sequence, and the no-credential pipeline (whose
retrieval on the empty transcript matches nothing) still completes with no
citations. -/
theorem C6_retrieval_bounded_sorted_empty_ok_witness :
    keywordRetrieve localDocs "zzz" 2 = [] ∧
    (finalJob fallbackProviders [9] (newJob 4)).status = .completed ∧
    (finalJob fallbackProviders [9] (newJob 4)).citations = [] := by
  have h := C6_retrieval_bounded_sorted_empty_ok localDocs "zzz" 2
    (fun _ _ => 0) fallbackProviders [9] 4
  have hkr : keywordRetrieve localDocs "" 3 = [] := by decide
  have hre : fallbackProviders.retrieve "" = .ok [] := by
    show fallbackRetrieve "" = .ok []
    unfold fallbackRetrieve
    rw [hkr]
    rfl
  have hpipe := h.2.2.2.2.2.2 "" (fallbackReply "" []) (List.replicate 160 0)
    rfl hre rfl rfl
  exact ⟨h.2.2.2.2.1 (by decide), hpipe.1, hpipe.2⟩

end Personaplex

namespace AppJs

/-! ## Helper lemmas about the browser client -/

theorem stopClick_no_call_of_none (c : ClientUI) (hc : c.recorder = none) :
    (stopClick c).2 = false := by
  simp [stopClick, hc]

theorem stopClick_no_call_of_inactive (c : ClientUI)
    (hc : c.recorder = some .inactive) : (stopClick c).2 = false := by
  simp [stopClick, hc]

theorem uiRun_recorder_none (evs : List UIEvent) (c : ClientUI)
    (hc : c.recorder = none) (h : ∀ e ∈ evs, e ≠ .recordGranted) :
    (uiRun c evs).recorder = none := by
  induction evs generalizing c with
  | nil => exact hc
  | cons e es ih =>
    have hrest : ∀ x ∈ es, x ≠ UIEvent.recordGranted :=
      fun x hx => h x (List.mem_cons_of_mem e hx)
    cases e with
    | recordGranted => exact absurd rfl (h _ (List.mem_cons_self _ _))
    | recordDenied m =>
      refine ih _ ?_ hrest
      simpa [uiStep] using hc
    | stopPress =>
      refine ih _ ?_ hrest
      simp [uiStep, stopClick, hc]

end AppJs

/-- C9: the stop-button handler invokes `MediaRecorder.stop` only when a
recorder exists and its state is not inactive — so the call (the model's
boolean) never happens on a missing or inactive recorder, the handler is a
total function (never throws), and along any event sequence in which no
recording was ever granted, pressing Stop never calls `stop`. -/
theorem C9_stop_button_guarded :
    (∀ c : AppJs.ClientUI,
      c.recorder = none ∨ c.recorder = some .inactive →
        (AppJs.stopClick c).2 = false) ∧
    (∀ c : AppJs.ClientUI, (AppJs.stopClick c).2 = true →
      ∃ s, c.recorder = some s ∧ s ≠ .inactive) ∧
    (∀ evs : List AppJs.UIEvent, (∀ e ∈ evs, e ≠ .recordGranted) →
      (AppJs.stopClick (AppJs.uiRun AppJs.initClient evs)).2 = false) := by
  refine ⟨?_, ?_, ?_⟩
  · intro c hc
    rcases hc with hc | hc
    · exact AppJs.stopClick_no_call_of_none c hc
    · exact AppJs.stopClick_no_call_of_inactive c hc
  · intro c h
    rcases hr : c.recorder with _ | s
    · rw [AppJs.stopClick_no_call_of_none c hr] at h
      cases h
    · by_cases hs : s = .inactive
      · subst hs
        rw [AppJs.stopClick_no_call_of_inactive c hr] at h
        cases h
      · exact ⟨s, rfl, hs⟩
  · intro evs h
    exact AppJs.stopClick_no_call_of_none _
      (AppJs.uiRun_recorder_none evs AppJs.initClient rfl h)

/-- Witness for C9 at concrete inputs: Stop pressed before any recording
(fresh page) and Stop pressed after a denied microphone request both leave
`stop` uncalled. -/
theorem C9_stop_button_guarded_witness :
    (AppJs.stopClick AppJs.initClient).2 = false ∧
    (AppJs.stopClick (AppJs.uiRun AppJs.initClient
      [.recordDenied "denied", .stopPress])).2 = false :=
  ⟨C9_stop_button_guarded.1 AppJs.initClient (Or.inl rfl),
    C9_stop_button_guarded.2.2 [.recordDenied "denied", .stopPress]
      (by decide)⟩

/-- C10: on a non-ok response from `POST /api/voice`, `uploadAudio` updates
only the status text (with the error detail); the transcript element, the
assistant-text element, the player source and the player load count are all
left at their pre-upload values. -/
theorem C10_nonok_touches_only_status (dom : AppJs.Dom)
    (r : AppJs.VoiceResponse) (h : r.ok = false) :
    AppJs.uploadAudio dom (.ok r) =
      { dom with statusText :=
          "Error: " ++ AppJs.orDefault r.detail "Voice processing failed" } := by
  simp [AppJs.uploadAudio, h]

/-- Witness for C10 at a concrete input: a 4xx-style response with detail
`bad audio` changes the status line only. -/
theorem C10_nonok_touches_only_status_witness :
    AppJs.sampleErrResponse.ok = false ∧
    AppJs.uploadAudio AppJs.sampleDom (.ok AppJs.sampleErrResponse) =
      { AppJs.sampleDom with statusText := "Error: bad audio" } :=
  ⟨rfl, (C10_nonok_touches_only_status AppJs.sampleDom AppJs.sampleErrResponse
    rfl).trans (by decide)⟩

/-- C1, counterexample: the claim says the response to submission carries
no pipeline-stage outputs, but the repository's own client reads the
transcript and the assistant text out of the `POST /api/voice` response
body and displays them, reporting the flow as done (`app.js` lines 59-64).
At the concrete ok response the displayed transcript and assistant text are
exactly the ones carried by the submission response. -/
theorem C1_counterexample_response_carries_outputs :
    AppJs.sampleOkResponse.transcript = some "hello there" ∧
    AppJs.sampleOkResponse.assistant_text = some "sure, hi" ∧
    (AppJs.uploadAudio AppJs.sampleDom (.ok AppJs.sampleOkResponse)).transcript
      = "hello there" ∧
    (AppJs.uploadAudio AppJs.sampleDom (.ok AppJs.sampleOkResponse)).assistantText
      = "sure, hi" ∧
    (AppJs.uploadAudio AppJs.sampleDom (.ok AppJs.sampleOkResponse)).statusText
      = "Done. Job ID: job-1" := by
  decide

/-- C1, amended: submission creates a Job in `received` state and returns
its fresh identifier, immediately retrievable from the job store; and the
response to submission carries the pipeline outputs — transcript, assistant
text and job id — which the client reads and displays directly from the
`POST /api/voice` response. -/
theorem C1_submit_creates_job_response_carries_outputs (st : List Personaplex.Job)
    (audio : List Nat) (hw : ∀ j ∈ st, j.id < st.length) (dom : AppJs.Dom)
    (r : AppJs.VoiceResponse) (hr : r.ok = true) :
    Personaplex.findJob (Personaplex.submit st audio).1
      (Personaplex.submit st audio).2 = some (Personaplex.newJob st.length) ∧
    (Personaplex.newJob st.length).status = .received ∧
    AppJs.uploadAudio dom (.ok r) =
      { dom with
          transcript := AppJs.orDefault r.transcript "-"
          assistantText := AppJs.orDefault r.assistant_text "-"
          playerSrc := "/api/jobs/" ++ r.job_id ++ "/audio"
          playerLoads := dom.playerLoads + 1
          statusText := "Done. Job ID: " ++ r.job_id } := by
  refine ⟨Personaplex.findJob_submit st audio hw, rfl, ?_⟩
  simp [AppJs.uploadAudio, hr]

/-- Witness for the amended C1 at concrete inputs: submitting to the empty
store yields job 0 in `received` state, and the concrete ok response's
transcript, assistant text and job id land in the DOM. -/
theorem C1_submit_creates_job_response_carries_outputs_witness :
    Personaplex.findJob (Personaplex.submit [] [7]).1
      (Personaplex.submit [] [7]).2 = some (Personaplex.newJob 0) ∧
    (Personaplex.newJob 0).status = .received ∧
    AppJs.uploadAudio AppJs.sampleDom (.ok AppJs.sampleOkResponse) =
      { AppJs.sampleDom with
          transcript := AppJs.orDefault AppJs.sampleOkResponse.transcript "-"
          assistantText :=
            AppJs.orDefault AppJs.sampleOkResponse.assistant_text "-"
          playerSrc := "/api/jobs/" ++ AppJs.sampleOkResponse.job_id ++ "/audio"
          playerLoads := AppJs.sampleDom.playerLoads + 1
          statusText := "Done. Job ID: " ++ AppJs.sampleOkResponse.job_id } :=
  C1_submit_creates_job_response_carries_outputs [] [7] (by simp)
    AppJs.sampleDom AppJs.sampleOkResponse rfl
